import Mathlib

/-!
Verification of the credential-pool and request-pipeline core of the
CatieCli reverse proxy (backend/app).  The Python sources are shallowly
embedded: the database is a list of rows, `datetime.utcnow()` is an explicit
integer timestamp (seconds), SQLAlchemy queries become list filters and an
insertion sort models `ORDER BY`, and fallible code returns `Option` or
`Except`.  Every definition is translated from the corresponding function in
the repository, named after it where Lean allows.
-/

/-! ## String helpers (Python `in`, `.lower()`, truthiness) -/

/-- Whether the character list `p` is a leading segment of `cs`
(char-by-char comparison, as Python string matching does). -/
def listStartsWith : List Char → List Char → Bool
  | [], _ => true
  | _ :: _, [] => false
  | p :: ps, c :: cs => p == c && listStartsWith ps cs

/-- Whether `p` occurs contiguously anywhere in `cs`: the embedding of
Python's substring test `p in s`. -/
def listHasSub (p : List Char) : List Char → Bool
  | [] => listStartsWith p []
  | c :: cs => listStartsWith p (c :: cs) || listHasSub p cs

/-- Python `pat in s` on strings. -/
def strContainsSub (s pat : String) : Bool :=
  listHasSub pat.toList s.toList

/-- The whitespace class of Python's `\s` (ASCII part): space, tab,
newline, carriage return, vertical tab, form feed. -/
def pySpace (c : Char) : Bool :=
  c == ' ' || c == '\t' || c == '\n' || c == '\r' || c == '\x0b' || c == '\x0c'

/-- Drop the longest run of `\s` characters: the embedding of a greedy
`\s*` in the 429 retry-delay regexes. -/
def dropSpaces : List Char → List Char
  | [] => []
  | c :: cs => if pySpace c then dropSpaces cs else c :: cs

/-- `\s+`: at least one whitespace character, consumed greedily. -/
def dropSpaces1 : List Char → Option (List Char)
  | [] => none
  | c :: cs => if pySpace c then some (dropSpaces cs) else none

/-- Accumulate a decimal number from the digits at the head of the list. -/
def digitsAux : List Char → Nat → Nat × List Char
  | [], acc => (acc, [])
  | c :: cs, acc =>
    if c.isDigit then digitsAux cs (acc * 10 + (c.toNat - 48)) else (acc, c :: cs)

/-- `(\d+)`: one or more digits, consumed greedily, returned as a number. -/
def takeDigits : List Char → Option (Nat × List Char)
  | [] => none
  | c :: cs => if c.isDigit then some (digitsAux (c :: cs) 0) else none

/-- Match a literal character sequence and return the rest. -/
def matchLit : List Char → List Char → Option (List Char)
  | [], cs => some cs
  | _ :: _, [] => none
  | p :: ps, c :: cs => if p == c then matchLit ps cs else none

/-- Python `int(s)` on a header value: optional surrounding whitespace,
an optional sign, then decimal digits. -/
def pyIntOfStr (s : String) : Option Int :=
  let cs := (s.toList.dropWhile pySpace).reverse.dropWhile pySpace |>.reverse
  let digitVal : List Char → Option Int := fun ds =>
    if ds ≠ [] && ds.all Char.isDigit then some ((digitsAux ds 0).1 : Int) else none
  match cs with
  | '-' :: rest => (digitVal rest).map (fun n => -n)
  | '+' :: rest => digitVal rest
  | rest => digitVal rest

/-- Python `s.lower()` (ASCII case folding, written over the character
list so that it evaluates by kernel reduction). -/
def pyLower (s : String) : String :=
  String.mk (s.toList.map Char.toLower)

/-- Python code-point slicing `s[:n]`. -/
def pyTake (s : String) (n : Nat) : String :=
  String.mk (s.toList.take n)

/-! ## Data model (backend/app/models, as used by the services) -/

/-- A row of the `credentials` table, with the columns the credential pool
reads and writes.  Timestamps are seconds; `none` is SQL NULL. -/
structure Credential where
  id : Nat
  user_id : Option Nat
  api_type : String
  is_active : Bool
  is_public : Bool
  project_id : Option String
  model_tier : String
  last_used_at : Option Int
  last_used_flash : Option Int
  last_used_pro : Option Int
  last_used_30 : Option Int
  total_requests : Nat
  failed_requests : Nat
  last_error : Option String
  deriving DecidableEq, Repr

/-- A row of the `users` table (the columns the pool and quota code read). -/
structure User where
  id : Nat
  is_admin : Bool
  quota_flash : Int
  quota_25pro : Int
  quota_30pro : Int
  daily_quota : Int
  bonus_quota : Option Int
  deriving DecidableEq, Repr

/-- A row of the `usage_logs` table (the columns quota counting reads). -/
structure UsageLog where
  user_id : Nat
  model : String
  created_at : Int
  deriving DecidableEq, Repr

/-- The process-wide configuration (`app.config.settings`) fields the
embedded functions read. -/
structure Settings where
  credential_pool_mode : String
  cd_flash : Int
  cd_pro : Int
  cd_30 : Int
  quota_flash : Int
  quota_25pro : Int
  quota_30pro : Int
  no_cred_quota_flash : Int
  no_cred_quota_25pro : Int
  contributor_rpm : Int
  base_rpm : Int
  deriving Repr

/-! ## CredentialPool: tiers, model groups, cooldown -/

/-- `CredentialPool.validate_mode` raises unless the mode is one of the two
upstream variants; the embedding checks the same membership. -/
def validate_mode_ok (mode : String) : Bool :=
  mode == "geminicli" || mode == "antigravity"

/-- `CredentialPool.get_required_tier`: models whose lowercased name
contains the tier-3 marker require tier-3 credentials. -/
def get_required_tier (model : String) : String :=
  let ml := pyLower model
  if strContainsSub ml "gemini-3-" || strContainsSub ml "/gemini-3-" then "3" else "2.5"

/-- `CredentialPool.get_model_group`: the cooldown bucket of a model name
("flash", "pro" or "30"). -/
def get_model_group (model : String) : String :=
  if model == "" then "flash"
  else
    let ml := pyLower model
    if strContainsSub ml "gemini-3-" || strContainsSub ml "/gemini-3-" then "30"
    else if strContainsSub ml "pro" then "pro"
    else "flash"

/-- The model group of the optional `model` argument as
`get_available_credential` computes it (`... if model else "flash"`). -/
def model_group_of : Option String → String
  | some m => get_model_group m
  | none => "flash"

/-- The required tier of the optional `model` argument as
`get_available_credential` computes it (`... if model else "2.5"`). -/
def required_tier_of : Option String → String
  | some m => get_required_tier m
  | none => "2.5"

/-- `CredentialPool.get_cd_seconds`: the configured cooldown of a group. -/
def get_cd_seconds (st : Settings) (model_group : String) : Int :=
  if model_group == "30" then st.cd_30
  else if model_group == "pro" then st.cd_pro
  else st.cd_flash

/-- The per-group last-used stamp a group reads
(`credential.last_used_30 / _pro / _flash`). -/
def group_last_used (c : Credential) (model_group : String) : Option Int :=
  if model_group == "30" then c.last_used_30
  else if model_group == "pro" then c.last_used_pro
  else c.last_used_flash

/-- Write the per-group last-used stamp. -/
def set_group_last_used (c : Credential) (model_group : String) (v : Option Int) : Credential :=
  if model_group == "30" then { c with last_used_30 := v }
  else if model_group == "pro" then { c with last_used_pro := v }
  else { c with last_used_flash := v }

/-- `CredentialPool.is_credential_in_cd`: a credential is cooling down for a
group iff the configured cooldown is positive, the group stamp is set, and
`now` is before stamp + cooldown. -/
def is_credential_in_cd (st : Settings) (c : Credential) (model_group : String) (now : Int) : Bool :=
  let cd := get_cd_seconds st model_group
  if cd ≤ 0 then false
  else
    match group_last_used c model_group with
    | none => false
    | some lu => decide (now < lu + cd)

/-! ## CredentialPool: selection -/

/-- `CredentialPool.check_user_has_public_creds`: does the user own an
active public credential of this variant? -/
def check_user_has_public_creds (db : List Credential) (uid : Nat) (mode : String) : Bool :=
  db.any fun c =>
    c.user_id == some uid && c.api_type == mode && c.is_public && c.is_active

/-- `CredentialPool.check_user_has_tier3_creds`: does the user own an
active tier-3 credential of this variant? -/
def check_user_has_tier3_creds (db : List Credential) (uid : Nat) (mode : String) : Bool :=
  db.any fun c =>
    c.user_id == some uid && c.api_type == mode && c.model_tier == "3" && c.is_active

/-- The pool-mode sharing scope of `get_available_credential`
(its `private` / `tier3_shared` / else `full_shared` branch). -/
def pool_scope_ok (st : Settings) (db : List Credential) (uid : Nat)
    (user_has_public_creds : Bool) (required_tier : String) (mode : String)
    (c : Credential) : Bool :=
  if st.credential_pool_mode = "private" then
    c.user_id == some uid
  else if st.credential_pool_mode = "tier3_shared" then
    let user_has_tier3 := check_user_has_tier3_creds db uid mode
    if required_tier = "3" then
      if user_has_tier3 then c.is_public || c.user_id == some uid
      else c.user_id == some uid
    else c.is_public || c.user_id == some uid
  else
    if user_has_public_creds then c.is_public || c.user_id == some uid
    else c.user_id == some uid

/-- The WHERE clause of `get_available_credential`: active, of the requested
variant, with a non-empty `project_id`, not excluded, tier-matched, and in
the sharing scope of the pool mode. -/
def cred_query_ok (st : Settings) (db : List Credential) (uid : Nat)
    (user_has_public_creds : Bool) (model : Option String) (exclude_ids : List Nat)
    (mode : String) (c : Credential) : Bool :=
  let required_tier := required_tier_of model
  c.is_active && c.api_type == mode &&
    (match c.project_id with
     | some p => p != ""
     | none => false) &&
    !(exclude_ids.contains c.id) &&
    (required_tier != "3" || c.model_tier == "3") &&
    pool_scope_ok st db uid user_has_public_creds required_tier mode c

/-- `ORDER BY last_used_at ASC NULLS FIRST` as a relation on rows. -/
def last_used_le (a b : Credential) : Bool :=
  match a.last_used_at, b.last_used_at with
  | none, _ => true
  | some _, none => false
  | some x, some y => x ≤ y

/-- The filtered, ordered candidate rows `get_available_credential` reads
from the database. -/
def candidate_list (st : Settings) (db : List Credential) (uid : Nat)
    (user_has_public_creds : Bool) (model : Option String) (exclude_ids : List Nat)
    (mode : String) : List Credential :=
  List.insertionSort (fun a b => last_used_le a b = true)
    (db.filter (cred_query_ok st db uid user_has_public_creds model exclude_ids mode))

/-- The candidates not cooling down for the request's model group. -/
def available_credentials (st : Settings) (db : List Credential) (uid : Nat)
    (user_has_public_creds : Bool) (model : Option String) (exclude_ids : List Nat)
    (mode : String) (now : Int) : List Credential :=
  (candidate_list st db uid user_has_public_creds model exclude_ids mode).filter
    (fun c => !is_credential_in_cd st c (model_group_of model) now)

/-- The mutation `get_available_credential` applies to the chosen row before
returning it: stamp `last_used_at` and the group stamp with `now` and count
the request. -/
def touch_credential (c : Credential) (model_group : String) (now : Int) : Credential :=
  set_group_last_used
    { c with last_used_at := some now, total_requests := c.total_requests + 1 }
    model_group (some now)

/-- `CredentialPool.get_available_credential`: filter, order by
`last_used_at` (nulls first), prefer a candidate not in cooldown, fall back
to the least-recently-used one, mutate it and return it.  `validate_mode`
raising on an unknown variant is embedded as `none`. -/
def get_available_credential (st : Settings) (db : List Credential) (uid : Nat)
    (user_has_public_creds : Bool) (model : Option String) (exclude_ids : List Nat)
    (mode : String) (now : Int) : Option Credential :=
  if !validate_mode_ok mode then none
  else
    match candidate_list st db uid user_has_public_creds model exclude_ids mode with
    | [] => none
    | c0 :: rest =>
      let g := model_group_of model
      let chosen :=
        match (c0 :: rest).filter (fun c => !is_credential_in_cd st c g now) with
        | [] => c0
        | a :: _ => a
      some (touch_credential chosen g now)

/-! ## CredentialPool: failure handling -/

/-- The body of `CredentialPool.mark_credential_error`: bump
`failed_requests` and store the error truncated to 1000 characters (the
surrogate repair is the identity on well-formed text). -/
def mark_credential_error_update (c : Credential) (error : String) : Credential :=
  { c with failed_requests := c.failed_requests + 1,
           last_error := some (pyTake error 1000) }

/-- The auth-failure test of `handle_credential_failure`:
`"401" in error or "403" in error or "PERMISSION_DENIED" in error`. -/
def auth_failure_error (error : String) : Bool :=
  strContainsSub error "401" || strContainsSub error "403" ||
    strContainsSub error "PERMISSION_DENIED"

/-- The bonus-quota deduction of `handle_credential_failure`: flash plus
2.5-pro rewards, plus the tier-3 reward for a tier-3 credential. -/
def reward_deduction (st : Settings) (model_tier : String) : Int :=
  if model_tier == "3" then st.quota_flash + st.quota_25pro + st.quota_30pro
  else st.quota_flash + st.quota_25pro

/-- The owner update of `handle_credential_failure`: clamp the bonus quota
at zero after deducting the reward (`user.bonus_quota or 0`). -/
def deduct_owner_bonus (users : List User) (uid : Nat) (deduct : Int) : List User :=
  users.map fun u =>
    if u.id == uid then { u with bonus_quota := some (max 0 (u.bonus_quota.getD 0 - deduct)) }
    else u

/-- The owner-deduction guard `if cred.is_public and cred.user_id:` of
`handle_credential_failure` (Python treats user id 0 as falsy). -/
def owner_deduction_applies (c : Credential) : Bool :=
  c.is_public &&
    (match c.user_id with
     | some uid => uid != 0
     | none => false)

/-- `CredentialPool.handle_credential_failure` over the credential row and
the users table: mark the error; on an auth failure of a still-active
credential, disable it and, when it is public and user-owned, deduct the
owner's reward bonus.  The disable touches only `is_active`, so the owner id
and tier are read off the row `c` unchanged. -/
def handle_credential_failure (st : Settings) (users : List User) (c : Credential)
    (error : String) : Credential × List User :=
  let c1 := mark_credential_error_update c error
  if auth_failure_error error then
    if c1.is_active then
      let c2 := { c1 with is_active := false }
      if owner_deduction_applies c2 then
        match c.user_id with
        | some uid => (c2, deduct_owner_bonus users uid (reward_deduction st c.model_tier))
        | none => (c2, users)
      else (c2, users)
    else (c1, users)
  else (c1, users)

/-! ## CredentialPool: 429 retry-delay parsing and cooldown install -/

/-- The regex `"retryDelay"\s*:\s*"(\d+)s?"` tried at one position.  The
optional `s` needs no backtracking: a digit run cannot continue with a
double quote read as `s`. -/
def retryDelayAt (cs : List Char) : Option Nat := do
  let cs ← matchLit "\"retryDelay\"".toList cs
  let cs := dropSpaces cs
  let cs ← matchLit [':'] cs
  let cs := dropSpaces cs
  let cs ← matchLit ['"'] cs
  let (n, cs) ← takeDigits cs
  match cs with
  | 's' :: '"' :: _ => some n
  | '"' :: _ => some n
  | _ => none

/-- The regex `retry\s+after\s+(\d+)\s*s` (case-insensitive: applied to the
lowercased text) tried at one position. -/
def retryAfterTextAt (cs : List Char) : Option Nat := do
  let cs ← matchLit "retry".toList cs
  let cs ← dropSpaces1 cs
  let cs ← matchLit "after".toList cs
  let cs ← dropSpaces1 cs
  let (n, cs) ← takeDigits cs
  let cs := dropSpaces cs
  let _ ← matchLit ['s'] cs
  some n

/-- The regex `(\d+)\s*seconds?` (case-insensitive) tried at one position;
the optional trailing `s` never decides a match. -/
def secondsAt (cs : List Char) : Option Nat := do
  let (n, cs) ← takeDigits cs
  let cs := dropSpaces cs
  let _ ← matchLit "second".toList cs
  some n

/-- `re.search`: try the pattern at every position, leftmost match wins. -/
def searchPat (f : List Char → Option Nat) : List Char → Option Nat
  | [] => f []
  | c :: cs =>
    match f (c :: cs) with
    | some n => some n
    | none => searchPat f cs

/-- The `Retry-After` headers as `handle_429_rate_limit` receives them:
`headers.get("Retry-After") or headers.get("retry-after")`, with Python's
falsy empty string. -/
structure Http429Headers where
  retryAfterCap : Option String
  retryAfterLow : Option String
  deriving DecidableEq, Repr

/-- `headers.get("Retry-After") or headers.get("retry-after")`, `none` when
the result is missing or empty (both falsy in the source's `if`). -/
def get_retry_after_header : Option Http429Headers → Option String
  | none => none
  | some hs =>
    let v := match hs.retryAfterCap with
      | some s => if s == "" then hs.retryAfterLow else some s
      | none => hs.retryAfterLow
    match v with
    | some s => if s == "" then none else some s
    | none => none

/-- The `Retry-After` header value as an integer, `none` when the header is
absent, empty, or fails `int(...)`. -/
def retry_after_header_int (headers : Option Http429Headers) : Option Int :=
  (get_retry_after_header headers).bind pyIntOfStr

/-- The three text patterns of `parse_429_retry_after` in source order,
`0` when none matches. -/
def parse_429_from_text (error_text : String) : Int :=
  match searchPat retryDelayAt error_text.toList with
  | some n => (n : Int)
  | none =>
    match searchPat retryAfterTextAt (pyLower error_text).toList with
    | some n => (n : Int)
    | none =>
      match searchPat secondsAt (pyLower error_text).toList with
      | some n => (n : Int)
      | none => 0

/-- `CredentialPool.parse_429_retry_after`: the header first (any integer
it parses to is returned at once), then the three text patterns. -/
def parse_429_retry_after (error_text : String) (headers : Option Http429Headers) : Int :=
  match get_retry_after_header headers with
  | some s =>
    match pyIntOfStr s with
    | some n => n
    | none => parse_429_from_text error_text
  | none => parse_429_from_text error_text

/-- The `last_error` text `handle_429_rate_limit` stores. -/
def rate_limit_error_text (cd_seconds : Int) (model_group : String) (error_text : String) : String :=
  "429限速 CD " ++ toString cd_seconds ++ "秒 (" ++ model_group ++ ") - " ++
    (if error_text == "" then "" else pyTake error_text 300)

/-- `CredentialPool.handle_429_rate_limit`: parse the delay (default 60
when the parse yields nothing positive), then back-date the group stamp so
that stamp + configured cooldown lands on now + delay — unless the
configured cooldown is not positive, in which case the stamp is simply
`now` and the cooldown check never fires.  Returns the updated row and the
delay. -/
def handle_429_rate_limit (st : Settings) (c : Credential) (model : String)
    (error_text : String) (headers : Option Http429Headers) (now : Int) :
    Credential × Int :=
  let parsed := parse_429_retry_after error_text headers
  let cd_seconds := if parsed ≤ 0 then 60 else parsed
  let model_group := get_model_group model
  let config_cd := get_cd_seconds st model_group
  let last_used := if 0 < config_cd then now + cd_seconds - config_cd else now
  let c1 := set_group_last_used c model_group (some last_used)
  let c2 := { c1 with
    last_error := some (rate_limit_error_text cd_seconds model_group error_text),
    failed_requests := c1.failed_requests + 1 }
  (c2, cd_seconds)

/-- The claim's reading of the parse order, stated from the spec's words as
one option chain: header integer, else `retryDelay`, else `retry after N
seconds`, else `N seconds`, else nothing. -/
def parse_order_spec (error_text : String) (headers : Option Http429Headers) : Option Int :=
  (retry_after_header_int headers).orElse fun _ =>
    ((searchPat retryDelayAt error_text.toList).orElse fun _ =>
      (searchPat retryAfterTextAt (pyLower error_text).toList).orElse fun _ =>
        searchPat secondsAt (pyLower error_text).toList).map (fun n => (n : Int))

/-! ## Dispatcher pieces (routers/proxy.py) -/

/-- The success finalisation of `handle_non_stream`: on HTTP 200 the chosen
credential's `total_requests` is bumped again and `last_used_at` stamped. -/
def finalize_success_credential (c : Credential) (now : Int) : Credential :=
  { c with total_requests := c.total_requests + 1, last_used_at := some now }

/-- The credential update of `save_log_background` (the streaming
finalisation): identical bump of `total_requests` and `last_used_at`. -/
def save_log_background_credential (c : Credential) (now : Int) : Credential :=
  { c with total_requests := c.total_requests + 1, last_used_at := some now }

/-- The `topK` guard of the native `generateContent` /
`streamGenerateContent` endpoints: a present non-null value outside 1..64
is replaced by 64; everything else passes through.  The outer `Option` is
key presence in `generationConfig`, the inner one is a JSON null. -/
def fix_topK : Option (Option Int) → Option (Option Int)
  | none => none
  | some none => some none
  | some (some x) => if x < 1 || 64 < x then some (some 64) else some (some x)

/-- The `maxOutputTokens` guard of the same endpoints: a present non-null
value outside 1..65536 is replaced by 65536. -/
def fix_maxOutputTokens : Option (Option Int) → Option (Option Int)
  | none => none
  | some none => some none
  | some (some x) => if x < 1 || 65536 < x then some (some 65536) else some (some x)

/-- The parameter overwrite of `normalize_gemini_request`
(services/gemini_fix.py): whenever the request carries a non-empty
`generationConfig`, the forwarded `maxOutputTokens` and `topK` are set to
64000 and 64 outright, whatever was sent. -/
def normalize_config_params (has_generation_config : Bool) : Option (Int × Int) :=
  if has_generation_config then some (64, 64000) else none

/-- The day window of the quota check in `get_user_from_api_key`: the day
starts at 07:00 UTC (`now.replace(hour=7, ...)`, minus a day when `now` is
before it).  `now` is seconds since an epoch midnight. -/
def quota_day_start (now : Int) : Int :=
  let reset := now - now.emod 86400 + 7 * 3600
  if now < reset then reset - 86400 else reset

/-- The user's active credentials (the combined statistics query of
`get_user_from_api_key` counts them without an `api_type` filter). -/
def user_active_creds (db : List Credential) (uid : Nat) : List Credential :=
  db.filter fun c => c.user_id == some uid && c.is_active

/-- The daily-quota and tier-3 gate of `get_user_from_api_key` (everything
after the API key resolves, for a non-GET request).  It never reads
`is_admin`: only the RPM gate is admin-exempt.  Errors carry the HTTP
status and a tag naming the raising check. -/
def daily_quota_check (st : Settings) (db : List Credential) (logs : List UsageLog)
    (user : User) (model : String) (now : Int) : Except (Nat × String) Unit :=
  let start_of_day := quota_day_start now
  let required_tier := get_required_tier model
  let mine := user_active_creds db user.id
  let total_cred_count := mine.length
  let cred_30_count := (mine.filter fun c => c.model_tier == "3").length
  let has_credential := total_cred_count > 0
  let user_quota_flash : Int :=
    if user.quota_flash > 0 then user.quota_flash
    else if has_credential then (total_cred_count : Int) * st.quota_flash
    else st.no_cred_quota_flash
  let user_quota_pro : Int :=
    if user.quota_25pro > 0 then user.quota_25pro
    else if cred_30_count > 0 then (cred_30_count : Int) * st.quota_30pro
    else if has_credential then (total_cred_count : Int) * st.quota_25pro
    else st.no_cred_quota_25pro
  let has_30_access := cred_30_count > 0 || user.quota_30pro > 0
  let pro_or_3 : UsageLog → Bool := fun l =>
    strContainsSub l.model "pro" || strContainsSub l.model "3"
  let gate : Except (Nat × String) (Int × (UsageLog → Bool)) :=
    if required_tier == "3" then
      if !has_30_access then Except.error (403, "no_tier3_quota")
      else Except.ok (user_quota_pro, pro_or_3)
    else if strContainsSub (pyLower model) "pro" then
      Except.ok (user_quota_pro,
        if has_30_access then pro_or_3 else fun l => strContainsSub l.model "pro")
    else
      Except.ok (user_quota_flash, fun l =>
        !strContainsSub l.model "pro" && !strContainsSub l.model "3")
  match gate with
  | Except.error e => Except.error e
  | Except.ok (quota_limit, model_filter) =>
    if quota_limit > 0 || has_credential then
      let window := logs.filter fun l =>
        l.user_id == user.id && decide (start_of_day ≤ l.created_at)
      let current_usage := ((window.filter model_filter).length : Int)
      let total_usage := (window.length : Int)
      if quota_limit > 0 && current_usage ≥ quota_limit then
        Except.error (429, "class_quota")
      else if has_credential && total_usage ≥ user.daily_quota then
        Except.error (429, "total_quota")
      else Except.ok ()
    else Except.ok ()

/-- The RPM gate of `chat_completions` (and of the native endpoints):
admins are exempt; others are rejected with 429 once the last minute's
usage-log rows reach the contributor or base limit. -/
def rpm_check (st : Settings) (user : User) (user_has_public : Bool)
    (logs : List UsageLog) (now : Int) : Except (Nat × String) Unit :=
  if user.is_admin then Except.ok ()
  else
    let current_rpm := ((logs.filter fun l =>
      l.user_id == user.id && decide (now - 60 ≤ l.created_at)).length : Int)
    let max_rpm := if user_has_public then st.contributor_rpm else st.base_rpm
    if current_rpm ≥ max_rpm then Except.error (429, "rate_limit") else Except.ok ()

/-! ## Custom error messages (services/error_message_service.py) -/

/-- A row of the `ErrorMessageConfig` table. -/
structure ErrorMessageConfig where
  id : Nat
  error_type : Option String
  keyword : Option String
  custom_message : String
  priority : Int
  is_active : Bool
  deriving DecidableEq, Repr

/-- Python truthiness of an optional string column: set and non-empty. -/
def truthy_str : Option String → Bool
  | some s => s != ""
  | none => false

/-- `is_custom_error_messages_enabled`: the system-config row with the
toggle key exists and holds the string true. -/
def is_custom_error_messages_enabled (sysconfigs : List (String × String)) : Bool :=
  match sysconfigs.find? (fun kv => kv.1 == "custom_error_messages_enabled") with
  | some kv => kv.2 == "true"
  | none => false

/-- One rule's match test from the loop of `get_custom_error_message`: a
truthy keyword must occur in the lowercased error text, and then a truthy
error type must also equal the classified type; a rule with only a truthy
error type matches on type equality alone; a rule with neither never
matches. -/
def rule_matches (cfg : ErrorMessageConfig) (error_type : String) (error_text : String) : Bool :=
  if truthy_str cfg.keyword then
    listHasSub (pyLower (cfg.keyword.getD "")).toList (pyLower error_text).toList &&
      (if truthy_str cfg.error_type then cfg.error_type == some error_type else true)
  else if truthy_str cfg.error_type then cfg.error_type == some error_type
  else false

/-- The active rules in descending priority, as the service's
`ORDER BY priority DESC` query returns them. -/
def rules_by_priority (configs : List ErrorMessageConfig) : List ErrorMessageConfig :=
  List.insertionSort (fun a b => b.priority ≤ a.priority)
    (configs.filter (fun c => c.is_active))

/-- `get_custom_error_message`: `none` when the toggle is off, otherwise
the id and message of the first matching rule in descending priority. -/
def get_custom_error_message (sysconfigs : List (String × String))
    (configs : List ErrorMessageConfig) (error_type : String) (error_text : String) :
    Option (Nat × String) :=
  if !is_custom_error_messages_enabled sysconfigs then none
  else
    ((rules_by_priority configs).find? (fun c => rule_matches c error_type error_text)).map
      fun c => (c.id, c.custom_message)

/-! ## Fake streaming (services/antigravity_client.py) -/

/-- One `parts[]` entry of an upstream candidate. -/
structure GeminiPart where
  text : Option String
  thought : Bool
  deriving DecidableEq, Repr

/-- One upstream candidate; `parts` is `none` when the candidate carries no
`content.parts`. -/
structure GeminiCandidate where
  parts : Option (List GeminiPart)
  deriving DecidableEq, Repr

/-- The unwrapped upstream response body (`result.get("response", result)`);
a missing `candidates` key is the empty list. -/
structure GeminiResponse where
  candidates : List GeminiCandidate
  deriving DecidableEq, Repr

/-- The content extraction of `chat_completions_fake_stream`: the texts of
the first candidate's non-thought parts, concatenated. -/
def extract_fake_stream_content (r : GeminiResponse) : String :=
  match r.candidates with
  | [] => ""
  | cand :: _ =>
    match cand.parts with
    | none => ""
    | some ps =>
      ps.foldl (fun acc p =>
        match p.text with
        | some t => if p.thought then acc else acc ++ t
        | none => acc) ""

/-- One SSE event of the fake-stream generator: a chat-completion chunk
(the delta's role and content, and the finish reason), or the final
sentinel line, which renders as the literal text `data: [DONE]` and two
newlines. -/
inductive FakeStreamEvent where
  | chunk (role : Option String) (content : Option String) (finish : Option String)
  | doneSentinel
  deriving DecidableEq, Repr

/-- The error text the generator puts into the final chunk's content delta
when the upstream call raised. -/
def fake_stream_error_text (e : String) : String :=
  "\n\n[Error: " ++ e ++ "]"

/-- `AntigravityClient.chat_completions_fake_stream` as the list of events
one execution yields: the initial role-only chunk, `heartbeats` empty-delta
keepalives, then — from the awaited upstream outcome — either the content
chunk (when non-empty) and a stop chunk, or a stop chunk carrying the error
text, and in every case the `[DONE]` sentinel. -/
def chat_completions_fake_stream (heartbeats : Nat)
    (outcome : Except String GeminiResponse) : List FakeStreamEvent :=
  FakeStreamEvent.chunk (some "assistant") none none ::
    (List.replicate heartbeats (FakeStreamEvent.chunk none none none) ++
      match outcome with
      | Except.ok r =>
        let content := extract_fake_stream_content r
        (if content != "" then [FakeStreamEvent.chunk none (some content) none] else []) ++
          [FakeStreamEvent.chunk none none (some "stop"), FakeStreamEvent.doneSentinel]
      | Except.error e =>
        [FakeStreamEvent.chunk none (some (fake_stream_error_text e)) (some "stop"),
          FakeStreamEvent.doneSentinel])

/-- The final chunk's content delta as the claim describes it: the error
text on an upstream exception, nothing on success. -/
def final_chunk_content : Except String GeminiResponse → Option String
  | Except.ok _ => none
  | Except.error e => some (fake_stream_error_text e)

/-! ## Concrete fixtures used by the claim witnesses and counterexamples -/

/-- Pool settings for the C1 witness: private pool mode. -/
def c1Settings : Settings :=
  { credential_pool_mode := "private", cd_flash := 60, cd_pro := 120, cd_30 := 300,
    quota_flash := 10, quota_25pro := 15, quota_30pro := 20,
    no_cred_quota_flash := 5, no_cred_quota_25pro := 5,
    contributor_rpm := 30, base_rpm := 10 }

/-- An active tier-3 credential of user 7 for the C1 witness. -/
def c1Cred : Credential :=
  { id := 1, user_id := some 7, api_type := "geminicli", is_active := true,
    is_public := false, project_id := some "proj-1", model_tier := "3",
    last_used_at := none, last_used_flash := none, last_used_pro := none,
    last_used_30 := none, total_requests := 0, failed_requests := 0,
    last_error := none }

/-- The row `c1Cred` as the acquisition at time 0 returns it. -/
def c1Touched : Credential :=
  { c1Cred with last_used_at := some 0, last_used_30 := some 0, total_requests := 1 }

/-- Pool settings for the C2 witness: private pool, one-minute flash
cooldown. -/
def c2Settings : Settings :=
  { credential_pool_mode := "private", cd_flash := 60, cd_pro := 120, cd_30 := 300,
    quota_flash := 10, quota_25pro := 15, quota_30pro := 20,
    no_cred_quota_flash := 5, no_cred_quota_25pro := 5,
    contributor_rpm := 30, base_rpm := 10 }

/-- A credential still cooling down for the flash group at time 30. -/
def c2Cred : Credential :=
  { id := 2, user_id := some 7, api_type := "geminicli", is_active := true,
    is_public := false, project_id := some "proj-2", model_tier := "2.5",
    last_used_at := some 0, last_used_flash := some 0, last_used_pro := none,
    last_used_30 := none, total_requests := 4, failed_requests := 0,
    last_error := none }

/-- Pool settings for the C5 witness: full-shared pool mode. -/
def c5Settings : Settings :=
  { credential_pool_mode := "full_shared", cd_flash := 60, cd_pro := 120, cd_30 := 300,
    quota_flash := 10, quota_25pro := 15, quota_30pro := 20,
    no_cred_quota_flash := 5, no_cred_quota_25pro := 5,
    contributor_rpm := 30, base_rpm := 10 }

/-- User 9's own private credential for the C5 witness. -/
def c5OwnCred : Credential :=
  { id := 5, user_id := some 9, api_type := "geminicli", is_active := true,
    is_public := false, project_id := some "proj-5", model_tier := "2.5",
    last_used_at := none, last_used_flash := none, last_used_pro := none,
    last_used_30 := none, total_requests := 0, failed_requests := 0,
    last_error := none }

/-- Another user's private credential, which a non-donor must never get. -/
def c5OtherCred : Credential :=
  { id := 6, user_id := some 4, api_type := "geminicli", is_active := true,
    is_public := false, project_id := some "proj-6", model_tier := "2.5",
    last_used_at := none, last_used_flash := none, last_used_pro := none,
    last_used_30 := none, total_requests := 0, failed_requests := 0,
    last_error := none }

/-- A fresh credential of user 7 for the C3 evaluation. -/
def c3Cred : Credential :=
  { id := 3, user_id := some 7, api_type := "geminicli", is_active := true,
    is_public := false, project_id := some "proj-3", model_tier := "2.5",
    last_used_at := none, last_used_flash := none, last_used_pro := none,
    last_used_30 := none, total_requests := 0, failed_requests := 0,
    last_error := none }

/-- Pool settings with a zero flash cooldown for the C4 counterexample. -/
def c4ZeroSettings : Settings :=
  { credential_pool_mode := "private", cd_flash := 0, cd_pro := 120, cd_30 := 300,
    quota_flash := 10, quota_25pro := 15, quota_30pro := 20,
    no_cred_quota_flash := 5, no_cred_quota_25pro := 5,
    contributor_rpm := 30, base_rpm := 10 }

/-- A credential hit by a 429 in the C4 scenarios. -/
def c4Cred : Credential :=
  { id := 4, user_id := some 7, api_type := "geminicli", is_active := true,
    is_public := false, project_id := some "proj-4", model_tier := "2.5",
    last_used_at := none, last_used_flash := none, last_used_pro := none,
    last_used_30 := none, total_requests := 0, failed_requests := 0,
    last_error := none }

/-- An already-disabled public donated credential for the C7
counterexample. -/
def c7InactiveCred : Credential :=
  { id := 7, user_id := some 7, api_type := "geminicli", is_active := false,
    is_public := true, project_id := some "proj-7", model_tier := "2.5",
    last_used_at := none, last_used_flash := none, last_used_pro := none,
    last_used_30 := none, total_requests := 3, failed_requests := 1,
    last_error := none }

/-- The owner of the donated credential, with 100 bonus quota. -/
def c7Owner : User :=
  { id := 7, is_admin := false, quota_flash := 0, quota_25pro := 0,
    quota_30pro := 0, daily_quota := 100, bonus_quota := some 100 }

/-- The same credential while still active, for the C7 witness. -/
def c7ActiveCred : Credential :=
  { c7InactiveCred with is_active := true }

/-- An admin with one credential and a daily total quota of 1. -/
def c8Admin : User :=
  { id := 1, is_admin := true, quota_flash := 0, quota_25pro := 0,
    quota_30pro := 0, daily_quota := 1, bonus_quota := none }

/-- The admin's active credential. -/
def c8Cred : Credential :=
  { id := 8, user_id := some 1, api_type := "geminicli", is_active := true,
    is_public := false, project_id := some "proj-8", model_tier := "2.5",
    last_used_at := none, last_used_flash := none, last_used_pro := none,
    last_used_30 := none, total_requests := 0, failed_requests := 0,
    last_error := none }

/-- One request already logged inside the current quota day. -/
def c8Log : UsageLog :=
  { user_id := 1, model := "gemini-2.5-flash", created_at := 7 * 3600 + 100 }

instance : IsTotal ErrorMessageConfig (fun a b => b.priority ≤ a.priority) :=
  ⟨fun a b => Int.le_total b.priority a.priority⟩

instance : IsTrans ErrorMessageConfig (fun a b => b.priority ≤ a.priority) :=
  ⟨fun _ _ _ hab hbc => le_trans hbc hab⟩


/-! ## Helper lemmas about credential selection -/

theorem touch_credential_fields (c : Credential) (g : String) (now : Int) :
    (touch_credential c g now).is_active = c.is_active ∧
    (touch_credential c g now).api_type = c.api_type ∧
    (touch_credential c g now).project_id = c.project_id ∧
    (touch_credential c g now).id = c.id ∧
    (touch_credential c g now).model_tier = c.model_tier ∧
    (touch_credential c g now).user_id = c.user_id ∧
    (touch_credential c g now).is_public = c.is_public ∧
    (touch_credential c g now).last_used_at = some now ∧
    (touch_credential c g now).total_requests = c.total_requests + 1 := by
  unfold touch_credential set_group_last_used
  split
  · exact ⟨rfl, rfl, rfl, rfl, rfl, rfl, rfl, rfl, rfl⟩
  · split
    · exact ⟨rfl, rfl, rfl, rfl, rfl, rfl, rfl, rfl, rfl⟩
    · exact ⟨rfl, rfl, rfl, rfl, rfl, rfl, rfl, rfl, rfl⟩

theorem group_last_used_set (c : Credential) (g : String) (v : Option Int) :
    group_last_used (set_group_last_used c g v) g = v := by
  by_cases h30 : g == "30"
  · simp [group_last_used, set_group_last_used, h30]
  · by_cases hpro : g == "pro"
    · simp [group_last_used, set_group_last_used, h30, hpro]
    · simp [group_last_used, set_group_last_used, h30, hpro]

theorem acquire_some_shape {st : Settings} {db : List Credential} {uid : Nat}
    {uhp : Bool} {model : Option String} {excl : List Nat} {mode : String}
    {now : Int} {c : Credential}
    (h : get_available_credential st db uid uhp model excl mode now = some c) :
    validate_mode_ok mode = true ∧
    ∃ chosen, chosen ∈ candidate_list st db uid uhp model excl mode ∧
      c = touch_credential chosen (model_group_of model) now ∧
      ((available_credentials st db uid uhp model excl mode now = [] ∧
          some chosen = (candidate_list st db uid uhp model excl mode).head?) ∨
        some chosen = (available_credentials st db uid uhp model excl mode now).head?) := by
  unfold get_available_credential at h
  by_cases hv : validate_mode_ok mode
  · refine ⟨hv, ?_⟩
    rw [hv] at h
    simp only [Bool.not_true, Bool.false_eq_true, if_false] at h
    unfold available_credentials
    cases hls : candidate_list st db uid uhp model excl mode with
    | nil => rw [hls] at h; cases h
    | cons c0 rest =>
      rw [hls] at h
      have h' : some (touch_credential
          (match List.filter
              (fun cc => !is_credential_in_cd st cc (model_group_of model) now)
              (c0 :: rest) with
           | [] => c0
           | a :: _ => a) (model_group_of model) now) = some c := h
      cases hf : List.filter
          (fun cc => !is_credential_in_cd st cc (model_group_of model) now)
          (c0 :: rest) with
      | nil =>
        rw [hf] at h'
        exact ⟨c0, List.mem_cons_self c0 rest,
          ((Option.some.injEq _ _).mp h').symm, Or.inl ⟨rfl, rfl⟩⟩
      | cons a arest =>
        rw [hf] at h'
        have hmem : a ∈ List.filter
            (fun cc => !is_credential_in_cd st cc (model_group_of model) now)
            (c0 :: rest) := by
          rw [hf]
          exact List.mem_cons_self a arest
        exact ⟨a, (List.mem_filter.mp hmem).1,
          ((Option.some.injEq _ _).mp h').symm, Or.inr rfl⟩
  · rw [Bool.not_eq_true] at hv
    rw [hv] at h
    cases h

theorem mem_candidate_query {st : Settings} {db : List Credential} {uid : Nat}
    {uhp : Bool} {model : Option String} {excl : List Nat} {mode : String}
    {c : Credential} (h : c ∈ candidate_list st db uid uhp model excl mode) :
    c ∈ db ∧ cred_query_ok st db uid uhp model excl mode c = true := by
  unfold candidate_list at h
  have h2 := (List.perm_insertionSort (fun a b => last_used_le a b = true)
    (db.filter (cred_query_ok st db uid uhp model excl mode))).subset h
  exact ⟨(List.mem_filter.mp h2).1, (List.mem_filter.mp h2).2⟩

theorem cred_query_ok_decode {st : Settings} {db : List Credential} {uid : Nat}
    {uhp : Bool} {model : Option String} {excl : List Nat} {mode : String}
    {c : Credential} (h : cred_query_ok st db uid uhp model excl mode c = true) :
    c.is_active = true ∧ c.api_type = mode ∧
    (∃ p, c.project_id = some p ∧ p ≠ "") ∧
    excl.contains c.id = false ∧
    (required_tier_of model = "3" → c.model_tier = "3") ∧
    pool_scope_ok st db uid uhp (required_tier_of model) mode c = true := by
  unfold cred_query_ok at h
  simp only [Bool.and_eq_true] at h
  obtain ⟨⟨⟨⟨⟨hA, hB⟩, hC⟩, hD⟩, hE⟩, hF⟩ := h
  refine ⟨hA, by simpa using hB, ?_, by simpa using hD, ?_, hF⟩
  · cases hproj : c.project_id with
    | none => rw [hproj] at hC; cases hC
    | some p => rw [hproj] at hC; exact ⟨p, rfl, by simpa using hC⟩
  · intro hreq
    rw [hreq] at hE
    simpa using hE

/-- Claim C1: a credential returned by `get_available_credential` is
active, of the requested upstream variant, carries a non-empty project id,
is not among the excluded ids, and — when the requested model name contains
the tier-3 marker — has model tier "3".  In particular an inactive
credential is never returned by any acquire call. -/
theorem c1_acquire_filter_invariants (st : Settings) (db : List Credential)
    (uid : Nat) (uhp : Bool) (model : Option String) (excl : List Nat)
    (mode : String) (now : Int) (c : Credential)
    (h : get_available_credential st db uid uhp model excl mode now = some c) :
    c.is_active = true ∧ c.api_type = mode ∧
    (∃ p, c.project_id = some p ∧ p ≠ "") ∧
    excl.contains c.id = false ∧
    (∀ m, model = some m → strContainsSub (pyLower m) "gemini-3-" = true →
      c.model_tier = "3") := by
  obtain ⟨-, chosen, hmem, hc, -⟩ := acquire_some_shape h
  obtain ⟨hdb, hq⟩ := mem_candidate_query hmem
  obtain ⟨hA, hB, hC, hD, hE, -⟩ := cred_query_ok_decode hq
  obtain ⟨f1, f2, f3, f4, f5, -, -, -, -⟩ :=
    touch_credential_fields chosen (model_group_of model) now
  subst hc
  refine ⟨by rw [f1, hA], by rw [f2, hB], ?_, by rw [f4, hD], ?_⟩
  · obtain ⟨p, hp, hpne⟩ := hC
    exact ⟨p, by rw [f3, hp], hpne⟩
  · intro m hm hcontains
    rw [f5]
    apply hE
    rw [hm]
    unfold required_tier_of get_required_tier
    simp [hcontains]

/-- Witness for C1: acquiring for the tier-3 model returns the credential,
and the theorem's conclusion holds of it. -/
theorem c1_acquire_filter_invariants_witness :
    c1Touched.is_active = true ∧ c1Touched.api_type = "geminicli" ∧
    (∃ p, c1Touched.project_id = some p ∧ p ≠ "") ∧
    ([] : List Nat).contains c1Touched.id = false ∧
    (∀ m, (some "gemini-3-pro-preview" : Option String) = some m →
      strContainsSub (pyLower m) "gemini-3-" = true → c1Touched.model_tier = "3") :=
  c1_acquire_filter_invariants c1Settings [c1Cred] 7 false
    (some "gemini-3-pro-preview") [] "geminicli" 0 c1Touched (by decide)

theorem acquire_eval (st : Settings) (db : List Credential) (uid : Nat)
    (uhp : Bool) (model : Option String) (excl : List Nat) (mode : String)
    (now : Int) (hmode : validate_mode_ok mode = true)
    {c0 : Credential} {rest : List Credential}
    (hls : candidate_list st db uid uhp model excl mode = c0 :: rest) :
    get_available_credential st db uid uhp model excl mode now =
      some (touch_credential
        (match available_credentials st db uid uhp model excl mode now with
         | [] => c0
         | a :: _ => a) (model_group_of model) now) := by
  unfold get_available_credential available_credentials
  rw [hmode, hls]
  simp only [Bool.not_true, Bool.false_eq_true, if_false]

/-- Claim C2: once the filtered candidate set is non-empty the function
never returns `none`; it returns the head of the cooldown-free candidates
in last-used order when one exists, and otherwise fails open with the
least-recently-used candidate; the returned row carries the stamped
`last_used_at`, the stamped group-specific last-used time, and the
incremented `total_requests`. -/
theorem c2_selection_fail_open (st : Settings) (db : List Credential)
    (uid : Nat) (uhp : Bool) (model : Option String) (excl : List Nat)
    (mode : String) (now : Int)
    (hmode : validate_mode_ok mode = true)
    (hne : candidate_list st db uid uhp model excl mode ≠ []) :
    ∃ chosen,
      get_available_credential st db uid uhp model excl mode now
        = some (touch_credential chosen (model_group_of model) now) ∧
      (available_credentials st db uid uhp model excl mode now ≠ [] →
        some chosen = (available_credentials st db uid uhp model excl mode now).head?) ∧
      (available_credentials st db uid uhp model excl mode now = [] →
        some chosen = (candidate_list st db uid uhp model excl mode).head?) ∧
      (touch_credential chosen (model_group_of model) now).last_used_at = some now ∧
      group_last_used (touch_credential chosen (model_group_of model) now)
        (model_group_of model) = some now ∧
      (touch_credential chosen (model_group_of model) now).total_requests
        = chosen.total_requests + 1 := by
  cases hls : candidate_list st db uid uhp model excl mode with
  | nil => exact absurd hls hne
  | cons c0 rest =>
    have heval := acquire_eval st db uid uhp model excl mode now hmode hls
    cases hf : available_credentials st db uid uhp model excl mode now with
    | nil =>
      rw [hf] at heval
      refine ⟨c0, heval, ?_, ?_, ?_, group_last_used_set _ _ _, ?_⟩
      · intro hne2; exact absurd rfl hne2
      · intro _; rfl
      · exact (touch_credential_fields c0 (model_group_of model) now).2.2.2.2.2.2.2.1
      · exact (touch_credential_fields c0 (model_group_of model) now).2.2.2.2.2.2.2.2
    | cons a arest =>
      rw [hf] at heval
      refine ⟨a, heval, ?_, ?_, ?_, group_last_used_set _ _ _, ?_⟩
      · intro _; rfl
      · intro h0; exact (List.cons_ne_nil a arest h0).elim
      · exact (touch_credential_fields a (model_group_of model) now).2.2.2.2.2.2.2.1
      · exact (touch_credential_fields a (model_group_of model) now).2.2.2.2.2.2.2.2

/-- Witness for C2 at a pool whose only candidate is in cooldown: the
fail-open branch still returns it, mutated. -/
theorem c2_selection_fail_open_witness :
    ∃ chosen,
      get_available_credential c2Settings [c2Cred] 7 false
          (some "gemini-2.5-flash") [] "geminicli" 30
        = some (touch_credential chosen (model_group_of (some "gemini-2.5-flash")) 30) ∧
      (available_credentials c2Settings [c2Cred] 7 false
          (some "gemini-2.5-flash") [] "geminicli" 30 ≠ [] →
        some chosen = (available_credentials c2Settings [c2Cred] 7 false
          (some "gemini-2.5-flash") [] "geminicli" 30).head?) ∧
      (available_credentials c2Settings [c2Cred] 7 false
          (some "gemini-2.5-flash") [] "geminicli" 30 = [] →
        some chosen = (candidate_list c2Settings [c2Cred] 7 false
          (some "gemini-2.5-flash") [] "geminicli").head?) ∧
      (touch_credential chosen (model_group_of (some "gemini-2.5-flash")) 30).last_used_at
        = some 30 ∧
      group_last_used (touch_credential chosen (model_group_of (some "gemini-2.5-flash")) 30)
        (model_group_of (some "gemini-2.5-flash")) = some 30 ∧
      (touch_credential chosen (model_group_of (some "gemini-2.5-flash")) 30).total_requests
        = chosen.total_requests + 1 :=
  c2_selection_fail_open c2Settings [c2Cred] 7 false (some "gemini-2.5-flash")
    [] "geminicli" 30 (by decide) (by decide)

theorem pub_or_own_decode {b : Bool} {o : Option Nat} {uid : Nat}
    (h : (b || o == some uid) = true) : b = true ∨ o = some uid := by
  simpa using h

/-- Claim C5: under the caller's wiring of the donor flag, a non-donor in
`full_shared` mode only ever receives their own credentials, a donor only
public credentials or their own, and in every pool mode the returned
credential is public or owned by the requesting user. -/
theorem c5_full_shared_donor_scope (st : Settings) (db : List Credential)
    (uid : Nat) (model : Option String) (excl : List Nat) (mode : String)
    (now : Int) (c : Credential)
    (hres : get_available_credential st db uid
      (check_user_has_public_creds db uid mode) model excl mode now = some c) :
    (c.is_public = true ∨ c.user_id = some uid) ∧
    (st.credential_pool_mode = "full_shared" →
      check_user_has_public_creds db uid mode = false → c.user_id = some uid) ∧
    (st.credential_pool_mode = "full_shared" →
      check_user_has_public_creds db uid mode = true →
      c.is_public = true ∨ c.user_id = some uid) := by
  obtain ⟨-, chosen, hmem, hc, -⟩ := acquire_some_shape hres
  obtain ⟨-, hq⟩ := mem_candidate_query hmem
  obtain ⟨-, -, -, -, -, hscope⟩ := cred_query_ok_decode hq
  obtain ⟨-, -, -, -, -, f6, f7, -, -⟩ :=
    touch_credential_fields chosen (model_group_of model) now
  have h1 : chosen.is_public = true ∨ chosen.user_id = some uid := by
    have hs := hscope
    unfold pool_scope_ok at hs
    dsimp only at hs
    split at hs
    · exact Or.inr (by simpa using hs)
    · split at hs
      · split at hs
        · split at hs
          · exact pub_or_own_decode hs
          · exact Or.inr (by simpa using hs)
        · exact pub_or_own_decode hs
      · split at hs
        · exact pub_or_own_decode hs
        · exact Or.inr (by simpa using hs)
  have h2 : st.credential_pool_mode = "full_shared" →
      check_user_has_public_creds db uid mode = false →
      chosen.user_id = some uid := by
    intro hm hch
    have hs := hscope
    unfold pool_scope_ok at hs
    dsimp only at hs
    split at hs
    · rename_i hpriv
      rw [hm] at hpriv
      exact absurd hpriv (by decide)
    · split at hs
      · rename_i _ ht3
        rw [hm] at ht3
        exact absurd ht3 (by decide)
      · rw [hch] at hs
        simpa using hs
  have h3 : st.credential_pool_mode = "full_shared" →
      check_user_has_public_creds db uid mode = true →
      chosen.is_public = true ∨ chosen.user_id = some uid := fun _ _ => h1
  subst hc
  refine ⟨?_, ?_, ?_⟩
  · rcases h1 with h | h
    · exact Or.inl (f7.trans h)
    · exact Or.inr (f6.trans h)
  · intro hm hch
    exact f6.trans (h2 hm hch)
  · intro hm hch
    rcases h3 hm hch with h | h
    · exact Or.inl (f7.trans h)
    · exact Or.inr (f6.trans h)

/-- Witness for C5: a non-donor acquisition in full-shared mode. -/
theorem c5_full_shared_donor_scope_witness :
    ((touch_credential c5OwnCred "flash" 0).is_public = true ∨
      (touch_credential c5OwnCred "flash" 0).user_id = some 9) ∧
    (c5Settings.credential_pool_mode = "full_shared" →
      check_user_has_public_creds [c5OtherCred, c5OwnCred] 9 "geminicli" = false →
      (touch_credential c5OwnCred "flash" 0).user_id = some 9) ∧
    (c5Settings.credential_pool_mode = "full_shared" →
      check_user_has_public_creds [c5OtherCred, c5OwnCred] 9 "geminicli" = true →
      (touch_credential c5OwnCred "flash" 0).is_public = true ∨
        (touch_credential c5OwnCred "flash" 0).user_id = some 9) :=
  c5_full_shared_donor_scope c5Settings [c5OtherCred, c5OwnCred] 9
    (some "gemini-2.5-flash") [] "geminicli" 0
    (touch_credential c5OwnCred "flash" 0) (by decide)

/-- Claim C3, amended: over a request that completes with HTTP 200, the
serving credential's `total_requests` is incremented twice — once inside
`get_available_credential` and once again by the success finalisation (the
non-stream path and the stream background log alike). -/
theorem c3_total_requests_incremented_twice (st : Settings) (db : List Credential)
    (uid : Nat) (uhp : Bool) (model : Option String) (excl : List Nat)
    (mode : String) (now now2 : Int) (c : Credential)
    (hres : get_available_credential st db uid uhp model excl mode now = some c) :
    ∃ c0, c0 ∈ db ∧ c = touch_credential c0 (model_group_of model) now ∧
      (finalize_success_credential c now2).total_requests = c0.total_requests + 2 ∧
      (save_log_background_credential c now2).total_requests = c0.total_requests + 2 := by
  obtain ⟨-, chosen, hmem, hc, -⟩ := acquire_some_shape hres
  obtain ⟨hdb, -⟩ := mem_candidate_query hmem
  have ft := (touch_credential_fields chosen (model_group_of model) now).2.2.2.2.2.2.2.2
  subst hc
  refine ⟨chosen, hdb, rfl, ?_, ?_⟩
  · simp only [finalize_success_credential]
    rw [ft]
  · simp only [save_log_background_credential]
    rw [ft]

/-- Counterexample to C3 as stated: a fresh credential (counter 0) that
serves one 200 request ends at `total_requests = 2` — acquisition and
finalisation each add one — not at the single increment the claim
asserts. -/
theorem c3_counterexample_single_increment :
    (get_available_credential c1Settings [c3Cred] 7 false
        (some "gemini-2.5-flash") [] "geminicli" 0).map
      (fun c => (finalize_success_credential c 1).total_requests) = some 2 ∧
    c3Cred.total_requests = 0 ∧ (2 : Nat) ≠ 0 + 1 := by
  exact ⟨by decide, rfl, by decide⟩

/-- Witness for the amended C3 at the same concrete pool. -/
theorem c3_total_requests_incremented_twice_witness :
    ∃ c0, c0 ∈ [c3Cred] ∧
      touch_credential c3Cred (model_group_of (some "gemini-2.5-flash")) 0
        = touch_credential c0 (model_group_of (some "gemini-2.5-flash")) 0 ∧
      (finalize_success_credential
        (touch_credential c3Cred (model_group_of (some "gemini-2.5-flash")) 0) 1).total_requests
        = c0.total_requests + 2 ∧
      (save_log_background_credential
        (touch_credential c3Cred (model_group_of (some "gemini-2.5-flash")) 0) 1).total_requests
        = c0.total_requests + 2 :=
  c3_total_requests_incremented_twice c1Settings [c3Cred] 7 false
    (some "gemini-2.5-flash") [] "geminicli" 0 1
    (touch_credential c3Cred (model_group_of (some "gemini-2.5-flash")) 0) (by decide)

theorem parse_429_eq_spec_chain (error_text : String) (headers : Option Http429Headers) :
    parse_429_retry_after error_text headers = (parse_order_spec error_text headers).getD 0 := by
  unfold parse_429_retry_after parse_order_spec retry_after_header_int parse_429_from_text
  cases hh : get_retry_after_header headers with
  | none =>
    cases h1 : searchPat retryDelayAt error_text.toList with
    | some n => simp [Option.orElse]
    | none =>
      cases h2 : searchPat retryAfterTextAt (pyLower error_text).toList with
      | some n => simp [Option.orElse]
      | none =>
        cases h3 : searchPat secondsAt (pyLower error_text).toList with
        | some n => simp [Option.orElse]
        | none => simp [Option.orElse]
  | some s =>
    cases hi : pyIntOfStr s with
    | some n => simp [Option.orElse, hi]
    | none =>
      cases h1 : searchPat retryDelayAt error_text.toList with
      | some n => simp [Option.orElse, hi]
      | none =>
        cases h2 : searchPat retryAfterTextAt (pyLower error_text).toList with
        | some n => simp [Option.orElse, hi]
        | none =>
          cases h3 : searchPat secondsAt (pyLower error_text).toList with
          | some n => simp [Option.orElse, hi]
          | none => simp [Option.orElse, hi]

theorem group_last_used_set_error (x : Credential) (e : Option String) (k : Nat)
    (g : String) :
    group_last_used { x with last_error := e, failed_requests := k } g
      = group_last_used x g := by
  unfold group_last_used
  by_cases h30 : g == "30" <;> by_cases hpro : g == "pro" <;> simp [h30, hpro]

theorem group_last_used_after_handle_429 (st : Settings) (c : Credential)
    (model : String) (error_text : String) (headers : Option Http429Headers)
    (now : Int) :
    group_last_used (handle_429_rate_limit st c model error_text headers now).1
        (get_model_group model)
      = some (if 0 < get_cd_seconds st (get_model_group model)
              then now + (handle_429_rate_limit st c model error_text headers now).2
                   - get_cd_seconds st (get_model_group model)
              else now) := by
  unfold handle_429_rate_limit
  dsimp only
  rw [group_last_used_set_error, group_last_used_set]

/-- Claim C4, amended: parsing tries the Retry-After header, then the
`retryDelay` field, then the `retry after N seconds` phrase, then the bare
`N seconds` phrase, and the delay defaults to 60 when nothing positive is
parsed; provided the group's configured cooldown is positive, the stamp is
set to now + delay − cd so that the group's cooldown, as computed by
`is_credential_in_cd`, holds strictly before now + delay and ends exactly
there.  (When the configured cooldown is zero or negative the stamp is set
to `now` and the group is never reported in cooldown.) -/
theorem c4_429_cooldown_expiry (st : Settings) (c : Credential) (model : String)
    (error_text : String) (headers : Option Http429Headers) (now : Int)
    (hcd : 0 < get_cd_seconds st (get_model_group model)) :
    parse_429_retry_after error_text headers
      = (parse_order_spec error_text headers).getD 0 ∧
    (handle_429_rate_limit st c model error_text headers now).2
      = (if parse_429_retry_after error_text headers ≤ 0 then 60
         else parse_429_retry_after error_text headers) ∧
    group_last_used (handle_429_rate_limit st c model error_text headers now).1
        (get_model_group model)
      = some (now + (handle_429_rate_limit st c model error_text headers now).2
          - get_cd_seconds st (get_model_group model)) ∧
    is_credential_in_cd st (handle_429_rate_limit st c model error_text headers now).1
        (get_model_group model)
        (now + (handle_429_rate_limit st c model error_text headers now).2 - 1) = true ∧
    is_credential_in_cd st (handle_429_rate_limit st c model error_text headers now).1
        (get_model_group model)
        (now + (handle_429_rate_limit st c model error_text headers now).2) = false := by
  have hstamp := group_last_used_after_handle_429 st c model error_text headers now
  rw [if_pos hcd] at hstamp
  refine ⟨parse_429_eq_spec_chain error_text headers, rfl, hstamp, ?_, ?_⟩
  · unfold is_credential_in_cd
    dsimp only
    rw [if_neg (by omega : ¬ get_cd_seconds st (get_model_group model) ≤ 0)]
    rw [hstamp]
    exact decide_eq_true (by omega)
  · unfold is_credential_in_cd
    dsimp only
    rw [if_neg (by omega : ¬ get_cd_seconds st (get_model_group model) ≤ 0)]
    rw [hstamp]
    exact decide_eq_false (by omega)

/-- Counterexample to C4 as stated: with `cd_flash = 0` the parsed delay is
60 but the stamp is set to `now` (not now + delay − cd = 60), and one second
before the claimed expiry the credential is not reported in cooldown at
all. -/
theorem c4_counterexample_zero_cd :
    (handle_429_rate_limit c4ZeroSettings c4Cred "gemini-2.5-flash" "" none 0).2 = 60 ∧
    group_last_used
        (handle_429_rate_limit c4ZeroSettings c4Cred "gemini-2.5-flash" "" none 0).1
        "flash" = some 0 ∧
    (0 : Int) ≠ 0 + 60 - get_cd_seconds c4ZeroSettings "flash" ∧
    is_credential_in_cd c4ZeroSettings
        (handle_429_rate_limit c4ZeroSettings c4Cred "gemini-2.5-flash" "" none 0).1
        "flash" 59 = false := by
  exact ⟨by decide, by decide, by decide, by decide⟩

/-- Witness for the amended C4 at a positive configured cooldown. -/
theorem c4_429_cooldown_expiry_witness :
    parse_429_retry_after "" none = (parse_order_spec "" none).getD 0 ∧
    (handle_429_rate_limit c2Settings c4Cred "gemini-2.5-flash" "" none 0).2
      = (if parse_429_retry_after "" none ≤ 0 then 60 else parse_429_retry_after "" none) ∧
    group_last_used (handle_429_rate_limit c2Settings c4Cred "gemini-2.5-flash" "" none 0).1
        (get_model_group "gemini-2.5-flash")
      = some (0 + (handle_429_rate_limit c2Settings c4Cred "gemini-2.5-flash" "" none 0).2
          - get_cd_seconds c2Settings (get_model_group "gemini-2.5-flash")) ∧
    is_credential_in_cd c2Settings
        (handle_429_rate_limit c2Settings c4Cred "gemini-2.5-flash" "" none 0).1
        (get_model_group "gemini-2.5-flash")
        (0 + (handle_429_rate_limit c2Settings c4Cred "gemini-2.5-flash" "" none 0).2 - 1)
      = true ∧
    is_credential_in_cd c2Settings
        (handle_429_rate_limit c2Settings c4Cred "gemini-2.5-flash" "" none 0).1
        (get_model_group "gemini-2.5-flash")
        (0 + (handle_429_rate_limit c2Settings c4Cred "gemini-2.5-flash" "" none 0).2)
      = false :=
  c4_429_cooldown_expiry c2Settings c4Cred "gemini-2.5-flash" "" none 0 (by decide)

/-- Claim C6, amended: on the native generateContent/streamGenerateContent
endpoints a present, non-null `topK` outside 1..64 is replaced by 64 and a
`maxOutputTokens` outside 1..65536 by 65536 — the upper bound, not a clamp
to the nearer bound — while in-range values pass through unchanged; so
topK 0 and 100 both become 64, and maxOutputTokens 0 and 100000 both become
65536.  (The antigravity OpenAI-compat path's `normalize_gemini_request`
instead overwrites topK to 64 and maxOutputTokens to 64000 whenever a
generationConfig is present.) -/
theorem c6_native_range_guards (x : Int) :
    fix_topK (some (some x)) = some (some (if x < 1 || 64 < x then 64 else x)) ∧
    fix_maxOutputTokens (some (some x))
      = some (some (if x < 1 || 65536 < x then 65536 else x)) ∧
    fix_topK (some (some 0)) = some (some 64) ∧
    fix_topK (some (some 100)) = some (some 64) ∧
    fix_topK (some (some 32)) = some (some 32) ∧
    fix_maxOutputTokens (some (some 0)) = some (some 65536) ∧
    fix_maxOutputTokens (some (some 100000)) = some (some 65536) ∧
    fix_maxOutputTokens (some (some 2048)) = some (some 2048) ∧
    normalize_config_params true = some (64, 64000) ∧
    normalize_config_params false = none := by
  refine ⟨?_, ?_, by decide, by decide, by decide, by decide, by decide,
    by decide, rfl, rfl⟩
  · simp only [fix_topK]
    by_cases h : (decide (x < 1) || decide (64 < x)) = true
    · simp [h]
    · simp [h]
  · simp only [fix_maxOutputTokens]
    by_cases h : (decide (x < 1) || decide (65536 < x)) = true
    · simp [h]
    · simp [h]

/-- Counterexample to C6 as stated: `topK = 0` is not clamped to the lower
bound 1 but replaced by 64, and `maxOutputTokens = 0` likewise becomes
65536, not 1. -/
theorem c6_counterexample_lower_bound :
    fix_topK (some (some 0)) = some (some 64) ∧
    ¬ fix_topK (some (some 0)) = some (some 1) ∧
    fix_maxOutputTokens (some (some 0)) = some (some 65536) ∧
    ¬ fix_maxOutputTokens (some (some 0)) = some (some 1) := by
  exact ⟨by decide, by decide, by decide, by decide⟩

theorem handle_failure_auth_deduct {st : Settings} {users : List User}
    {c : Credential} {error : String} {uid : Nat}
    (hauth : auth_failure_error error = true) (hact : c.is_active = true)
    (hu : c.user_id = some uid) (hpub : c.is_public = true) (h0 : uid ≠ 0) :
    handle_credential_failure st users c error
      = ({ mark_credential_error_update c error with is_active := false },
         deduct_owner_bonus users uid (reward_deduction st c.model_tier)) := by
  unfold handle_credential_failure
  rw [if_pos hauth]
  rw [if_pos (show (mark_credential_error_update c error).is_active = true from hact)]
  have happ : owner_deduction_applies
      { mark_credential_error_update c error with is_active := false } = true := by
    show (c.is_public &&
      (match c.user_id with
       | some uid => uid != 0
       | none => false)) = true
    rw [hpub, hu]
    simpa using h0
  rw [if_pos happ]
  rw [hu]

theorem handle_failure_auth_no_deduct {st : Settings} {users : List User}
    {c : Credential} {error : String}
    (hauth : auth_failure_error error = true) (hact : c.is_active = true)
    (hnapp : owner_deduction_applies c = false) :
    handle_credential_failure st users c error
      = ({ mark_credential_error_update c error with is_active := false }, users) := by
  unfold handle_credential_failure
  rw [if_pos hauth]
  rw [if_pos (show (mark_credential_error_update c error).is_active = true from hact)]
  have hnot : ¬ owner_deduction_applies
      { mark_credential_error_update c error with is_active := false } = true := by
    show ¬ owner_deduction_applies c = true
    rw [hnapp]
    exact Bool.false_ne_true
  rw [if_neg hnot]

theorem handle_failure_no_auth {st : Settings} {users : List User}
    {c : Credential} {error : String}
    (hauth : ¬ auth_failure_error error = true) :
    handle_credential_failure st users c error
      = (mark_credential_error_update c error, users) := by
  unfold handle_credential_failure
  rw [if_neg hauth]

/-- Claim C7, amended: for an invocation on a still-active credential,
`handle_credential_failure` bumps `failed_requests`, stores the truncated
error, disables the credential exactly when the error indicates an auth
failure, and in that case — when the credential is public and user-owned —
replaces the owner's bonus quota with the reward deduction clamped at
zero.  (An already-inactive credential is only marked: no deduction runs.) -/
theorem c7_failure_marks_and_disables (st : Settings) (users : List User)
    (c : Credential) (error : String) (hact : c.is_active = true) :
    (handle_credential_failure st users c error).1.failed_requests
      = c.failed_requests + 1 ∧
    (handle_credential_failure st users c error).1.last_error
      = some (pyTake error 1000) ∧
    ((handle_credential_failure st users c error).1.is_active = false ↔
      auth_failure_error error = true) ∧
    (auth_failure_error error = true → c.is_public = true →
      ∀ uid, c.user_id = some uid → uid ≠ 0 →
        (handle_credential_failure st users c error).2
          = deduct_owner_bonus users uid (reward_deduction st c.model_tier)) ∧
    (auth_failure_error error = false →
      (handle_credential_failure st users c error).2 = users ∧
      (handle_credential_failure st users c error).1.is_active = true) := by
  by_cases hauth : auth_failure_error error = true
  · by_cases happ : owner_deduction_applies c = true
    · have hpub : c.is_public = true := ((Bool.and_eq_true _ _).mp happ).1
      cases hu : c.user_id with
      | none =>
        exfalso
        have := ((Bool.and_eq_true _ _).mp happ).2
        rw [hu] at this
        exact Bool.false_ne_true this
      | some uid =>
        have h0 : uid ≠ 0 := by
          have := ((Bool.and_eq_true _ _).mp happ).2
          rw [hu] at this
          simpa using this
        have hres := @handle_failure_auth_deduct st users c error uid
          hauth hact hu hpub h0
        rw [hres]
        refine ⟨rfl, rfl, ⟨fun _ => hauth, fun _ => rfl⟩, ?_, ?_⟩
        · intro _ _ uid' hu' _
          have huid : uid' = uid := ((Option.some.injEq _ _).mp hu').symm
          rw [huid]
        · intro hfalse
          rw [hauth] at hfalse
          cases hfalse
    · have hnapp : owner_deduction_applies c = false := by
        cases h : owner_deduction_applies c with
        | false => rfl
        | true => exact absurd h happ
      have hres := @handle_failure_auth_no_deduct st users c error
        hauth hact hnapp
      rw [hres]
      refine ⟨rfl, rfl, ⟨fun _ => hauth, fun _ => rfl⟩, ?_, ?_⟩
      · intro _ hpub uid hu h0
        exfalso
        apply h0
        have : (match c.user_id with
            | some uid => uid != 0
            | none => false) = false := by
          have hsplit := (Bool.and_eq_false_iff.mp
            (by unfold owner_deduction_applies at hnapp; exact hnapp))
          rcases hsplit with h | h
          · rw [hpub] at h; cases h
          · exact h
        rw [hu] at this
        simpa using this
      · intro hfalse
        rw [hauth] at hfalse
        cases hfalse
  · have hres := @handle_failure_no_auth st users c error hauth
    rw [hres]
    refine ⟨rfl, rfl, ?_, ?_, fun _ => ⟨rfl, hact⟩⟩
    · constructor
      · intro hf
        exact absurd (hact ▸ (show c.is_active = false from hf)) (by decide)
      · intro ha
        exact absurd ha hauth
    · intro ha
      exact absurd ha hauth

/-- Counterexample to C7 as stated: an auth-failure invocation on a public,
user-owned but already-inactive credential leaves the owner's bonus quota
untouched, although the claim demands the reward deduction (here 25). -/
theorem c7_counterexample_inactive_no_deduction :
    auth_failure_error "HTTP 401 PERMISSION_DENIED" = true ∧
    c7InactiveCred.is_public = true ∧
    c7InactiveCred.user_id = some 7 ∧
    reward_deduction c1Settings c7InactiveCred.model_tier = 25 ∧
    (handle_credential_failure c1Settings [c7Owner] c7InactiveCred
      "HTTP 401 PERMISSION_DENIED").2 = [c7Owner] ∧
    deduct_owner_bonus [c7Owner] 7
      (reward_deduction c1Settings c7InactiveCred.model_tier) ≠ [c7Owner] := by
  exact ⟨by decide, rfl, rfl, by decide, by decide, by decide⟩

/-- Witness for the amended C7: an auth failure on the active public
credential marks it, disables it and deducts the owner's bonus. -/
theorem c7_failure_marks_and_disables_witness :
    (handle_credential_failure c1Settings [c7Owner] c7ActiveCred "HTTP 401").1.failed_requests
      = c7ActiveCred.failed_requests + 1 ∧
    (handle_credential_failure c1Settings [c7Owner] c7ActiveCred "HTTP 401").1.last_error
      = some (pyTake "HTTP 401" 1000) ∧
    ((handle_credential_failure c1Settings [c7Owner] c7ActiveCred "HTTP 401").1.is_active = false ↔
      auth_failure_error "HTTP 401" = true) ∧
    (auth_failure_error "HTTP 401" = true → c7ActiveCred.is_public = true →
      ∀ uid, c7ActiveCred.user_id = some uid → uid ≠ 0 →
        (handle_credential_failure c1Settings [c7Owner] c7ActiveCred "HTTP 401").2
          = deduct_owner_bonus [c7Owner] uid
              (reward_deduction c1Settings c7ActiveCred.model_tier)) ∧
    (auth_failure_error "HTTP 401" = false →
      (handle_credential_failure c1Settings [c7Owner] c7ActiveCred "HTTP 401").2 = [c7Owner] ∧
      (handle_credential_failure c1Settings [c7Owner] c7ActiveCred "HTTP 401").1.is_active = true) :=
  c7_failure_marks_and_disables c1Settings [c7Owner] c7ActiveCred "HTTP 401" (by decide)

/-- Claim C8, amended: a user with the admin flag bypasses only the RPM
gate; the daily per-class, daily total and tier-3 checks of the API-key
dependency never read the admin flag, so they apply to admins unchanged and
an admin request can still be rejected with 429 by quota enforcement. -/
theorem c8_admin_exempt_rpm_only (st : Settings) (db : List Credential)
    (logs : List UsageLog) (user : User) (model : String) (now : Int)
    (user_has_public : Bool) (hadmin : user.is_admin = true) :
    rpm_check st user user_has_public logs now = Except.ok () ∧
    daily_quota_check st db logs { user with is_admin := false } model now
      = daily_quota_check st db logs user model now := by
  constructor
  · unfold rpm_check
    rw [if_pos hadmin]
  · rfl

/-- Counterexample to C8 as stated: the daily quota check rejects this
admin's request with 429 (total quota reached), so QuotaGuard is not
skipped for admins. -/
theorem c8_counterexample_admin_rejected :
    c8Admin.is_admin = true ∧
    daily_quota_check c1Settings [c8Cred] [c8Log] c8Admin "gemini-2.5-flash" 28800
      = Except.error (429, "total_quota") := by
  exact ⟨rfl, rfl⟩

/-- Witness for the amended C8 at the same concrete state. -/
theorem c8_admin_exempt_rpm_only_witness :
    rpm_check c1Settings c8Admin false [c8Log] 28800 = Except.ok () ∧
    daily_quota_check c1Settings [c8Cred] [c8Log] { c8Admin with is_admin := false }
        "gemini-2.5-flash" 28800
      = daily_quota_check c1Settings [c8Cred] [c8Log] c8Admin "gemini-2.5-flash" 28800 :=
  c8_admin_exempt_rpm_only c1Settings [c8Cred] [c8Log] c8Admin
    "gemini-2.5-flash" 28800 false rfl

theorem find_first_has_max_priority {p : ErrorMessageConfig → Bool}
    {l : List ErrorMessageConfig} {x : ErrorMessageConfig}
    (hs : List.Sorted (fun a b => b.priority ≤ a.priority) l)
    (hf : l.find? p = some x) :
    ∀ y ∈ l, p y = true → y.priority ≤ x.priority := by
  induction l with
  | nil => cases hf
  | cons a t ih =>
    by_cases hpa : p a = true
    · rw [List.find?_cons_of_pos t hpa] at hf
      have hax : x = a := ((Option.some.injEq _ _).mp hf).symm
      intro y hy hpy
      rcases List.mem_cons.mp hy with hya | hyt
      · rw [hya, hax]
      · rw [hax]
        exact (List.sorted_cons.mp hs).1 y hyt
    · rw [List.find?_cons_of_neg t hpa] at hf
      intro y hy hpy
      rcases List.mem_cons.mp hy with hya | hyt
      · rw [hya] at hpy
        exact absurd hpy hpa
      · exact ih (List.sorted_cons.mp hs).2 hf y hyt hpy

theorem mem_rules_by_priority {configs : List ErrorMessageConfig}
    {cfg : ErrorMessageConfig} :
    cfg ∈ rules_by_priority configs ↔ cfg ∈ configs ∧ cfg.is_active = true := by
  unfold rules_by_priority
  rw [(List.perm_insertionSort (fun a b => b.priority ≤ a.priority)
    (configs.filter (fun c => c.is_active))).mem_iff]
  rw [List.mem_filter]

/-- Claim C9: with the toggle off the service returns nothing; with it on,
`none` exactly when no active rule matches, and a returned message is the
message of an active matching rule whose priority is maximal among all
active matching rules (rules are tried in descending priority, keyword and
error-kind conditions as in `rule_matches`). -/
theorem c9_custom_error_rule_matching (sysconfigs : List (String × String))
    (configs : List ErrorMessageConfig) (error_type error_text : String) :
    (is_custom_error_messages_enabled sysconfigs = false →
      get_custom_error_message sysconfigs configs error_type error_text = none) ∧
    (get_custom_error_message sysconfigs configs error_type error_text = none ↔
      (is_custom_error_messages_enabled sysconfigs = false ∨
        ∀ cfg ∈ configs, cfg.is_active = true →
          rule_matches cfg error_type error_text = false)) ∧
    (∀ i m, get_custom_error_message sysconfigs configs error_type error_text
        = some (i, m) →
      ∃ cfg, cfg ∈ configs ∧ cfg.is_active = true ∧
        rule_matches cfg error_type error_text = true ∧
        i = cfg.id ∧ m = cfg.custom_message ∧
        ∀ cfg2 ∈ configs, cfg2.is_active = true →
          rule_matches cfg2 error_type error_text = true →
          cfg2.priority ≤ cfg.priority) := by
  by_cases hE : is_custom_error_messages_enabled sysconfigs = true
  · have hbody : get_custom_error_message sysconfigs configs error_type error_text
        = ((rules_by_priority configs).find?
            (fun c => rule_matches c error_type error_text)).map
          (fun c => (c.id, c.custom_message)) := by
      unfold get_custom_error_message
      rw [hE]
      rfl
    refine ⟨?_, ?_, ?_⟩
    · intro hfalse
      rw [hE] at hfalse
      cases hfalse
    · rw [hbody]
      constructor
      · intro hnone
        right
        have hfind : (rules_by_priority configs).find?
            (fun c => rule_matches c error_type error_text) = none :=
          Option.map_eq_none'.mp hnone
        intro cfg hmem hact
        have := List.find?_eq_none.mp hfind cfg
          (mem_rules_by_priority.mpr ⟨hmem, hact⟩)
        simpa using this
      · intro hor
        rcases hor with hfalse | hall
        · rw [hE] at hfalse
          cases hfalse
        · rw [Option.map_eq_none']
          rw [List.find?_eq_none]
          intro cfg hmem
          have := hall cfg (mem_rules_by_priority.mp hmem).1
            (mem_rules_by_priority.mp hmem).2
          simp [this]
    · intro i m hsome
      rw [hbody] at hsome
      obtain ⟨cfg, hfind, hmap⟩ := Option.map_eq_some'.mp hsome
      have hmem := mem_rules_by_priority.mp
        (List.mem_of_find?_eq_some hfind)
      have hmatch : rule_matches cfg error_type error_text = true := by
        simpa using List.find?_some hfind
      refine ⟨cfg, hmem.1, hmem.2, hmatch,
        ((Prod.mk.injEq _ _ _ _).mp hmap.symm).1,
        ((Prod.mk.injEq _ _ _ _).mp hmap.symm).2, ?_⟩
      intro cfg2 hmem2 hact2 hmatch2
      have hsorted : List.Sorted (fun a b => b.priority ≤ a.priority)
          (rules_by_priority configs) := by
        unfold rules_by_priority
        exact List.sorted_insertionSort _ _
      exact find_first_has_max_priority hsorted hfind cfg2
        (mem_rules_by_priority.mpr ⟨hmem2, hact2⟩) hmatch2
  · have hfalse : is_custom_error_messages_enabled sysconfigs = false := by
      cases h : is_custom_error_messages_enabled sysconfigs
      · rfl
      · exact absurd h hE
    have hnone : get_custom_error_message sysconfigs configs error_type error_text
        = none := by
      unfold get_custom_error_message
      rw [hfalse]
      rfl
    refine ⟨fun _ => hnone, ?_, ?_⟩
    · rw [hnone]
      exact ⟨fun _ => Or.inl hfalse, fun _ => rfl⟩
    · intro i m hsome
      rw [hnone] at hsome
      cases hsome

/-- Claim C10: every fake-stream execution opens with a role-only chunk,
and whatever the number of heartbeats and the upstream outcome, it ends
with a chunk whose finish reason is stop — carrying the bracketed error
text in its content delta when the upstream call raised, and no content on
success — followed by the `[DONE]` sentinel line. -/
theorem c10_fake_stream_framing (heartbeats : Nat)
    (outcome : Except String GeminiResponse) :
    (chat_completions_fake_stream heartbeats outcome).head?
      = some (FakeStreamEvent.chunk (some "assistant") none none) ∧
    ∃ pre, chat_completions_fake_stream heartbeats outcome
        = pre ++ [FakeStreamEvent.chunk none (final_chunk_content outcome) (some "stop"),
            FakeStreamEvent.doneSentinel] ∧
      (∀ e, outcome = Except.error e →
        final_chunk_content outcome = some (fake_stream_error_text e)) := by
  cases outcome with
  | ok r =>
    refine ⟨rfl, FakeStreamEvent.chunk (some "assistant") none none ::
      (List.replicate heartbeats (FakeStreamEvent.chunk none none none) ++
        (if extract_fake_stream_content r != "" then
          [FakeStreamEvent.chunk none (some (extract_fake_stream_content r)) none]
        else [])), ?_, fun e he => by cases he⟩
    unfold chat_completions_fake_stream
    dsimp only
    simp [final_chunk_content, List.cons_append, List.append_assoc]
  | error e0 =>
    refine ⟨rfl, FakeStreamEvent.chunk (some "assistant") none none ::
      List.replicate heartbeats (FakeStreamEvent.chunk none none none), ?_,
      fun e he => ?_⟩
    · unfold chat_completions_fake_stream
      dsimp only
      simp [final_chunk_content, List.cons_append, List.append_assoc]
    · cases he
      rfl
